import Mathlib

/-!
# Replica reconciliation of `plancks-docker`

A shallow embedding of `TotalReplicas` from `controller/pc-docker/service.go`
together with the properties of its result.

Modelling conventions.

* A Go `map[string]V` is a finite map `GoMap V` (Mathlib's `Finmap`): equality
  of two maps is equality of their key sets and of the values under every key,
  which is the only notion of equality a Go map has.  `m[k] = v` is
  `Finmap.insert`, the two-valued read `v, ok := m[k]` is `Finmap.lookup`, the
  one-valued read `m[k]` is `GoMap.get` (the zero value when the key is
  absent), `len(m)` is `GoMap.len`.
* A Go pointer that may be `nil` is an `Option`.
* `swarm.NodeState` and `swarm.TaskState` are Go string types; they are
  `String` here and the three constants the function compares against carry
  the values they have in `github.com/docker/docker/api/types/swarm`.
* The counters are Go `int`s.  A counter is incremented at most once per task,
  so it is bounded by `len(tasks)`, which is itself an `int`: no counter can
  wrap, and they are natural numbers here.  `ReplicasRequired` receives the
  pointed-to `uint64` unchanged.
* Only the fields `TotalReplicas` reads are kept in the records, under the
  nesting they have in the `swarm` package.
-/

namespace PcDocker

/-! ## Go maps -/

/-- A Go `map[string]V`. -/
abbrev GoMap (V : Type) : Type := Finmap (fun _ : String => V)

namespace GoMap

/-- The read `m[k]`: the stored value, or the zero value of the value type. -/
def get {V : Type} (m : GoMap V) (k : String) (zero : V) : V :=
  (Finmap.lookup k m).getD zero

/-- The builtin `len(m)`: the number of entries. -/
def len {V : Type} (m : GoMap V) : Nat :=
  m.keys.card

end GoMap

/-! ## The data model (`swarm` and `pc_model`) -/

/-- Constant `swarm.NodeStateDown`. -/
def NodeStateDown : String := "down"

/-- Constant `swarm.TaskStateRunning`. -/
def TaskStateRunning : String := "running"

/-- Constant `swarm.TaskStateShutdown`. -/
def TaskStateShutdown : String := "shutdown"

/-- Record `swarm.NodeStatus`. -/
structure NodeStatus where
  State : String
  deriving DecidableEq, Repr

/-- Record `swarm.Node`. -/
structure Node where
  ID : String
  Status : NodeStatus
  deriving DecidableEq, Repr

/-- Record `swarm.TaskStatus`. -/
structure TaskStatus where
  State : String
  deriving DecidableEq, Repr

/-- Record `swarm.Task`. -/
structure Task where
  ServiceID : String
  NodeID : String
  Status : TaskStatus
  DesiredState : String
  deriving DecidableEq, Repr

/-- Record `swarm.ReplicatedService`; `Replicas` is a `*uint64`. -/
structure ReplicatedService where
  Replicas : Option Nat
  deriving DecidableEq, Repr

/-- Record `swarm.ServiceMode`; `Replicated` is a `*ReplicatedService`. -/
structure ServiceMode where
  Replicated : Option ReplicatedService
  deriving DecidableEq, Repr

/-- Record `swarm.ContainerSpec`. -/
structure ContainerSpec where
  Image : String
  deriving DecidableEq, Repr

/-- Record `swarm.TaskSpec`. -/
structure TaskSpec where
  ContainerSpec : ContainerSpec
  deriving DecidableEq, Repr

/-- Record `swarm.ServiceSpec`; `Name` is promoted from the embedded
`swarm.Annotations`. -/
structure ServiceSpec where
  Name : String
  Mode : ServiceMode
  TaskTemplate : TaskSpec
  deriving DecidableEq, Repr

/-- Record `swarm.Service`. -/
structure Service where
  ID : String
  Spec : ServiceSpec
  deriving DecidableEq, Repr

/-- Modelled from the spec: the record `pc_model.ServiceState`, declared in the
`model` package of the repository (the spec's reconciled state record: service
id, service name, image reference, count of replicas running, count of
replicas required).  The field names and their types are those the composite
literal on lines 131-136 fixes: `ReplicasRunning` receives an `int`,
`ReplicasRequired` a `uint64`. -/
structure ServiceState where
  ID : String
  Name : String
  Image : String
  ReplicasRunning : Nat
  ReplicasRequired : Nat
  deriving DecidableEq, Repr

/-! ## `TotalReplicas` -/

/-- Body of the loop over `nodes` (lines 114-118). -/
def nodeStep (activeNodes : GoMap Unit) (n : Node) : GoMap Unit :=
  if n.Status.State ≠ NodeStateDown then
    activeNodes.insert n.ID ()
  else
    activeNodes

/-- The two counters the loop over `tasks` maintains. -/
structure Counters where
  running : GoMap Nat
  tasksNoShutdown : GoMap Nat

/-- The statement `m[k]++`. -/
def incr (m : GoMap Nat) (k : String) : GoMap Nat :=
  m.insert k (m.get k 0 + 1)

/-- Body of the loop over `tasks` (lines 120-127). -/
def taskStep (activeNodes : GoMap Unit) (c : Counters) (task : Task) : Counters :=
  let c1 : Counters :=
    if task.DesiredState ≠ TaskStateShutdown then
      { c with tasksNoShutdown := incr c.tasksNoShutdown task.ServiceID }
    else
      c
  if (Finmap.lookup task.NodeID activeNodes).isSome ∧ task.Status.State = TaskStateRunning then
    { c1 with running := incr c1.running task.ServiceID }
  else
    c1

/-- Body of the loop over `services` (lines 129-138).  The two pattern
alternatives are the two operands of the `&&` guard. -/
def serviceStep (running : GoMap Nat) (replicaState : GoMap ServiceState)
    (service : Service) : GoMap ServiceState :=
  match service.Spec.Mode.Replicated with
  | some replicated =>
    match replicated.Replicas with
    | some replicas =>
      replicaState.insert service.ID
        { ID := service.ID
          Name := service.Spec.Name
          Image := service.Spec.TaskTemplate.ContainerSpec.Image
          ReplicasRunning := running.get service.ID 0
          ReplicasRequired := replicas }
    | none => replicaState
  | none => replicaState

/-- The function `TotalReplicas` (lines 108-140): three loops, each over one
of the three slices, in slice order. -/
def TotalReplicas (services : List Service) (nodes : List Node) (tasks : List Task) :
    GoMap ServiceState :=
  let activeNodes : GoMap Unit := nodes.foldl nodeStep ∅
  let counters : Counters := tasks.foldl (taskStep activeNodes) ⟨∅, ∅⟩
  services.foldl (serviceStep counters.running) ∅

/-! ## `TotalReplicas` with explicit pointer dereferences -/

/-- Dereference of a Go pointer; dereferencing `nil` panics. -/
def deref {α : Type} (p : Option α) : Except String α :=
  match p with
  | some a => Except.ok a
  | none => Except.error "invalid memory address or nil pointer dereference"

/-- The guard of line 130, `Replicated != nil && Replicated.Replicas != nil`:
the right operand reads a field through `Replicated` and is evaluated only
when the left operand holds. -/
def serviceGuard (service : Service) : Except String Bool :=
  if service.Spec.Mode.Replicated.isSome then do
    let replicated ← deref service.Spec.Mode.Replicated
    pure replicated.Replicas.isSome
  else
    pure false

/-- Body of the loop over `services` with every dereference explicit. -/
def serviceStepChecked (running : GoMap Nat) (replicaState : GoMap ServiceState)
    (service : Service) : Except String (GoMap ServiceState) := do
  if (← serviceGuard service) then
    let replicated ← deref service.Spec.Mode.Replicated
    let replicas ← deref replicated.Replicas
    pure (replicaState.insert service.ID
      { ID := service.ID
        Name := service.Spec.Name
        Image := service.Spec.TaskTemplate.ContainerSpec.Image
        ReplicasRunning := running.get service.ID 0
        ReplicasRequired := replicas })
  else
    pure replicaState

/-- The function `TotalReplicas` with every dereference explicit: an `error`
result is a panic of the Go function. -/
def TotalReplicasChecked (services : List Service) (nodes : List Node) (tasks : List Task) :
    Except String (GoMap ServiceState) :=
  let activeNodes : GoMap Unit := nodes.foldl nodeStep ∅
  let counters : Counters := tasks.foldl (taskStep activeNodes) ⟨∅, ∅⟩
  services.foldlM (serviceStepChecked counters.running) ∅

/-! ## Scenarios -/

def mkService (id name image : String) (replicas : Nat) : Service :=
  ⟨id, ⟨name, ⟨some ⟨some replicas⟩⟩, ⟨⟨image⟩⟩⟩⟩

def mkTask (service node observed desired : String) : Task :=
  ⟨service, node, ⟨observed⟩, desired⟩

def scenarioAServices : List Service := [mkService "S1" "web" "nginx" 3]

def scenarioANodes : List Node := [⟨"N1", ⟨"ready"⟩⟩, ⟨"N2", ⟨"down"⟩⟩]

def scenarioATasks : List Task :=
  [mkTask "S1" "N1" "running" "running",
   mkTask "S1" "N2" "running" "running",
   mkTask "S1" "N1" "pending" "running"]

/-- A service in replicated mode whose `Replicas` pointer is nil. -/
def mkMalformed (id name image : String) : Service :=
  ⟨id, ⟨name, ⟨some ⟨none⟩⟩, ⟨⟨image⟩⟩⟩⟩

/-- A service that is not in replicated mode. -/
def mkGlobal (id name image : String) : Service :=
  ⟨id, ⟨name, ⟨none⟩, ⟨⟨image⟩⟩⟩⟩

/-- Scenario B: the non-replicated `S2` alongside `S1`. -/
def scenarioBServices : List Service :=
  [mkService "S1" "web" "nginx" 3, mkGlobal "S2" "agent" "busybox"]

/-- Two replicated services that share the id `S1`. -/
def sharedIdServices : List Service :=
  [mkService "S1" "web" "nginx" 3, mkService "S1" "web" "nginx" 5]

/-- A replicated and a non-replicated service that share the id `S1`. -/
def mixedModeServices : List Service :=
  [mkService "S1" "web" "nginx" 3, mkGlobal "S1" "agent" "busybox"]

/-- A single replicated-mode service without a replica count. -/
def malformedServices : List Service := [mkMalformed "S3" "db" "redis"]

/-! ## Vocabulary of the properties -/

/-- The loop over tasks, restricted to the `running` counter. -/
def runningStep (activeNodes : GoMap Unit) (running : GoMap Nat) (task : Task) : GoMap Nat :=
  if (Finmap.lookup task.NodeID activeNodes).isSome ∧ task.Status.State = TaskStateRunning then
    incr running task.ServiceID
  else
    running


/-- The node roster holds a node with this id whose status is not `down`. -/
def nodeActive (nodes : List Node) (id : String) : Prop :=
  ∃ n ∈ nodes, n.ID = id ∧ n.Status.State ≠ NodeStateDown

instance (nodes : List Node) (id : String) : Decidable (nodeActive nodes id) :=
  inferInstanceAs (Decidable (∃ n ∈ nodes, n.ID = id ∧ n.Status.State ≠ NodeStateDown))

/-- The task belongs to service `k`, is observed `running`, and sits on an
active node of the roster. -/
def countsFor (nodes : List Node) (k : String) (t : Task) : Prop :=
  t.ServiceID = k ∧ t.Status.State = TaskStateRunning ∧ nodeActive nodes t.NodeID

instance (nodes : List Node) (k : String) (t : Task) : Decidable (countsFor nodes k t) :=
  inferInstanceAs
    (Decidable (t.ServiceID = k ∧ t.Status.State = TaskStateRunning ∧ nodeActive nodes t.NodeID))

/-- Number of tasks of the list that count for service `k`. -/
def countedTasks (nodes : List Node) (tasks : List Task) (k : String) : Nat :=
  tasks.countP (fun t => decide (countsFor nodes k t))

/-- The required-replica count a service declares: present when the service
is in replicated mode and its `Replicas` pointer is set. -/
def declaredReplicas (s : Service) : Option Nat :=
  s.Spec.Mode.Replicated.bind (fun r => r.Replicas)

/-- The record the third loop builds for a service that declares `n` replicas,
given the value of the `running` counter under the service's id. -/
def recordOf (runningCount : Nat) (s : Service) (n : Nat) : ServiceState :=
  { ID := s.ID
    Name := s.Spec.Name
    Image := s.Spec.TaskTemplate.ContainerSpec.Image
    ReplicasRunning := runningCount
    ReplicasRequired := n }

/-- The last service of the list with id `k` that declares a replica count. -/
def lastEmitted (services : List Service) (k : String) : Option Service :=
  services.reverse.find? (fun s => decide (s.ID = k ∧ (declaredReplicas s).isSome))

/-! ## Lemmas on the three loops -/

theorem mem_nodes_fold (nodes : List Node) (m : GoMap Unit) (k : String) :
    k ∈ nodes.foldl nodeStep m ↔ k ∈ m ∨ nodeActive nodes k := by
  induction nodes generalizing m with
  | nil => simp [nodeActive]
  | cons n rest ih =>
    rw [List.foldl_cons, ih]
    by_cases hd : n.Status.State = NodeStateDown
    · have hstep : nodeStep m n = m := by simp [nodeStep, hd]
      rw [hstep]
      simp [nodeActive, hd]
    · have hstep : nodeStep m n = m.insert n.ID () := by simp [nodeStep, hd]
      rw [hstep, Finmap.mem_insert]
      simp only [nodeActive, List.mem_cons, exists_eq_or_imp]
      constructor
      · rintro ((h | h) | h)
        · exact Or.inr (Or.inl ⟨h.symm, hd⟩)
        · exact Or.inl h
        · exact Or.inr (Or.inr h)
      · rintro (h | h | h)
        · exact Or.inl (Or.inr h)
        · exact Or.inl (Or.inl h.1.symm)
        · exact Or.inr h

theorem activeNodes_isSome (nodes : List Node) (k : String) :
    (Finmap.lookup k (nodes.foldl nodeStep ∅)).isSome = true ↔ nodeActive nodes k := by
  rw [Finmap.lookup_isSome, mem_nodes_fold]
  simp [Finmap.not_mem_empty]

theorem get_incr (m : GoMap Nat) (j k : String) :
    (incr m j).get k 0 = m.get k 0 + (if j = k then 1 else 0) := by
  unfold incr GoMap.get
  by_cases h : j = k
  · subst h
    simp [Finmap.lookup_insert]
  · have h2 : k ≠ j := fun e => h e.symm
    simp [Finmap.lookup_insert_of_ne _ h2, h]

theorem taskStep_running (an : GoMap Unit) (c : Counters) (t : Task) :
    (taskStep an c t).running = runningStep an c.running t := by
  unfold taskStep runningStep
  by_cases h1 : t.DesiredState = TaskStateShutdown <;>
    by_cases h2 : (Finmap.lookup t.NodeID an).isSome ∧ t.Status.State = TaskStateRunning <;>
    simp [h1, h2]

theorem fold_taskStep_running (an : GoMap Unit) (tasks : List Task) (c : Counters) :
    (tasks.foldl (taskStep an) c).running = tasks.foldl (runningStep an) c.running := by
  induction tasks generalizing c with
  | nil => rfl
  | cons t rest ih => rw [List.foldl_cons, ih, taskStep_running, List.foldl_cons]

theorem get_fold_runningStep (nodes : List Node) (tasks : List Task) (r : GoMap Nat)
    (k : String) :
    (tasks.foldl (runningStep (nodes.foldl nodeStep ∅)) r).get k 0
      = r.get k 0 + countedTasks nodes tasks k := by
  induction tasks generalizing r with
  | nil => simp [countedTasks]
  | cons t rest ih =>
    rw [List.foldl_cons, ih]
    unfold countedTasks
    rw [List.countP_cons]
    unfold runningStep
    by_cases hn : nodeActive nodes t.NodeID
    · have hs := (activeNodes_isSome nodes t.NodeID).mpr hn
      by_cases hr : t.Status.State = TaskStateRunning
      · by_cases hk : t.ServiceID = k
        · simp [hs, hr, hk, get_incr, countsFor, hn]; omega
        · simp [hs, hr, hk, get_incr, countsFor, hn]
      · simp [hr, countsFor]
    · have hs : ¬ ((Finmap.lookup t.NodeID (nodes.foldl nodeStep ∅)).isSome = true) :=
        fun h => hn ((activeNodes_isSome nodes t.NodeID).mp h)
      simp [hs, countsFor, hn]

/-- The `running` counter after the first two loops, read at `k`. -/
theorem running_get (nodes : List Node) (tasks : List Task) (k : String) :
    (tasks.foldl (taskStep (nodes.foldl nodeStep ∅)) ⟨∅, ∅⟩).running.get k 0
      = countedTasks nodes tasks k := by
  rw [fold_taskStep_running, get_fold_runningStep]
  simp [GoMap.get]

theorem serviceStep_some (running : GoMap Nat) (m : GoMap ServiceState) (s : Service)
    (n : Nat) (h : declaredReplicas s = some n) :
    serviceStep running m s = m.insert s.ID (recordOf (running.get s.ID 0) s n) := by
  unfold serviceStep
  unfold declaredReplicas at h
  cases hr : s.Spec.Mode.Replicated with
  | none => simp [hr] at h
  | some r =>
    rw [hr] at h
    simp only [Option.some_bind] at h
    simp [h, recordOf]

theorem serviceStep_none (running : GoMap Nat) (m : GoMap ServiceState) (s : Service)
    (h : declaredReplicas s = none) : serviceStep running m s = m := by
  unfold serviceStep
  unfold declaredReplicas at h
  cases hr : s.Spec.Mode.Replicated with
  | none => rfl
  | some r =>
    rw [hr] at h
    simp only [Option.some_bind] at h
    simp [h]

/-- The third loop, read at a key: the entry comes from the last service of
the list with that id that declares a replica count. -/
theorem lookup_fold_serviceStep (running : GoMap Nat) (services : List Service) (k : String) :
    Finmap.lookup k (services.foldl (serviceStep running) ∅)
      = (lastEmitted services k).bind
          (fun s => (declaredReplicas s).map (recordOf (running.get s.ID 0) s)) := by
  induction services using List.reverseRecOn with
  | nil => simp [lastEmitted]
  | append_singleton l a ih =>
    rw [List.foldl_append, List.foldl_cons, List.foldl_nil]
    unfold lastEmitted at ih ⊢
    rw [List.reverse_append, List.reverse_singleton, List.singleton_append, List.find?_cons]
    cases hd : declaredReplicas a with
    | none =>
      rw [serviceStep_none _ _ _ hd, ih]
      simp [hd]
    | some n =>
      rw [serviceStep_some _ _ _ n hd]
      by_cases hk : a.ID = k
      · subst hk
        simp [hd, Finmap.lookup_insert]
      · have hk2 : k ≠ a.ID := fun e => hk e.symm
        rw [Finmap.lookup_insert_of_ne _ hk2, ih]
        simp [hk]

/-- The result of `TotalReplicas`, read at a key. -/
theorem lookup_TotalReplicas (services : List Service) (nodes : List Node) (tasks : List Task)
    (k : String) :
    Finmap.lookup k (TotalReplicas services nodes tasks)
      = (lastEmitted services k).bind
          (fun s => (declaredReplicas s).map (recordOf (countedTasks nodes tasks s.ID) s)) := by
  unfold TotalReplicas
  simp only [lookup_fold_serviceStep, running_get]

theorem lastEmitted_some {services : List Service} {k : String} {s : Service}
    (h : lastEmitted services k = some s) :
    s ∈ services ∧ s.ID = k ∧ ∃ n, declaredReplicas s = some n := by
  unfold lastEmitted at h
  have hp := List.find?_some h
  have hm := List.mem_of_find?_eq_some h
  simp only [decide_eq_true_eq] at hp
  refine ⟨List.mem_reverse.mp hm, hp.1, ?_⟩
  exact Option.isSome_iff_exists.mp hp.2

theorem lastEmitted_isSome_of_mem {services : List Service} {s : Service} {n : Nat}
    (hs : s ∈ services) (hn : declaredReplicas s = some n) :
    ∃ s', lastEmitted services s.ID = some s' := by
  unfold lastEmitted
  cases hf : services.reverse.find? (fun x => decide (x.ID = s.ID ∧ (declaredReplicas x).isSome)) with
  | some s' => exact ⟨s', rfl⟩
  | none =>
    rw [List.find?_eq_none] at hf
    have := hf s (List.mem_reverse.mpr hs)
    simp [hn] at this

/-- When no service after `s` in the list is emitted under the same id, `s` is
the last one emitted under its id. -/
theorem lastEmitted_of_split (pre post : List Service) (s : Service) (n : Nat)
    (hn : declaredReplicas s = some n)
    (hpost : ∀ x ∈ post, x.ID = s.ID → declaredReplicas x = none) :
    lastEmitted (pre ++ s :: post) s.ID = some s := by
  unfold lastEmitted
  rw [List.reverse_append, List.reverse_cons, List.append_assoc, List.find?_append]
  have h1 : List.find? (fun x => decide (x.ID = s.ID ∧ (declaredReplicas x).isSome)) post.reverse
      = none := by
    rw [List.find?_eq_none]
    intro x hx
    have hx2 := List.mem_reverse.mp hx
    simp only [decide_eq_true_eq, not_and]
    intro hid
    simp [hpost x hx2 hid]
  rw [h1]
  simp [hn]

theorem mem_TotalReplicas (services : List Service) (nodes : List Node) (tasks : List Task)
    (k : String) :
    k ∈ TotalReplicas services nodes tasks
      ↔ ∃ s ∈ services, s.ID = k ∧ ∃ n, declaredReplicas s = some n := by
  rw [Finmap.mem_iff]
  constructor
  · rintro ⟨r, hr⟩
    rw [lookup_TotalReplicas] at hr
    cases hl : lastEmitted services k with
    | none => simp [hl] at hr
    | some s =>
      obtain ⟨h1, h2, h3⟩ := lastEmitted_some hl
      exact ⟨s, h1, h2, h3⟩
  · rintro ⟨s, hs, hk, n, hn⟩
    obtain ⟨s', hs'⟩ := lastEmitted_isSome_of_mem hs hn
    rw [hk] at hs'
    obtain ⟨-, -, n', hn'⟩ := lastEmitted_some hs'
    rw [lookup_TotalReplicas, hs']
    exact ⟨recordOf (countedTasks nodes tasks s'.ID) s' n', by simp [hn']⟩

theorem keys_TotalReplicas (services : List Service) (nodes : List Node) (tasks : List Task) :
    (TotalReplicas services nodes tasks).keys
      = ((services.filter (fun s => (declaredReplicas s).isSome)).map (fun s => s.ID)).toFinset := by
  ext k
  rw [Finmap.mem_keys, mem_TotalReplicas]
  simp only [List.mem_toFinset, List.mem_map, List.mem_filter]
  constructor
  · rintro ⟨s, hs, hk, n, hn⟩
    exact ⟨s, ⟨hs, by simp [hn]⟩, hk⟩
  · rintro ⟨s, ⟨hs, hn⟩, hk⟩
    exact ⟨s, hs, hk, Option.isSome_iff_exists.mp hn⟩

theorem countedTasks_remove_of_not_counts (nodes : List Node) (pre post : List Task)
    (t : Task) (k : String) (h : ¬ countsFor nodes k t) :
    countedTasks nodes (pre ++ t :: post) k = countedTasks nodes (pre ++ post) k := by
  unfold countedTasks
  simp [List.countP_append, List.countP_cons, h]

theorem not_nodeActive_of_absent (nodes : List Node) (id : String)
    (h : ∀ n ∈ nodes, n.ID ≠ id) : ¬ nodeActive nodes id := by
  rintro ⟨n, hn, hid, -⟩
  exact h n hn hid

/-- Two task lists with the same counts give the same result. -/
theorem TotalReplicas_congr_tasks (services : List Service) (nodes nodes' : List Node)
    (tasks tasks' : List Task)
    (h : ∀ k, countedTasks nodes tasks k = countedTasks nodes' tasks' k) :
    TotalReplicas services nodes tasks = TotalReplicas services nodes' tasks' := by
  apply Finmap.ext_lookup
  intro k
  simp only [lookup_TotalReplicas, h]

theorem countedTasks_replace_le (nodes : List Node) (pre post : List Task) (t t' : Task)
    (k : String) (h : ¬ countsFor nodes k t') :
    countedTasks nodes (pre ++ t' :: post) k ≤ countedTasks nodes (pre ++ t :: post) k := by
  unfold countedTasks
  simp only [List.countP_append, List.countP_cons, h, decide_False]
  simp only [Bool.false_eq_true, if_false]
  omega

theorem countedTasks_mono_nodes (nodes nodes' : List Node) (tasks : List Task) (k : String)
    (h : ∀ id, nodeActive nodes' id → nodeActive nodes id) :
    countedTasks nodes' tasks k ≤ countedTasks nodes tasks k := by
  unfold countedTasks
  apply List.countP_mono_left
  intro t _ ht
  simp only [decide_eq_true_eq] at ht ⊢
  exact ⟨ht.1, ht.2.1, h _ ht.2.2⟩

theorem nodeActive_of_down (npre npost : List Node) (x : Node) (id : String)
    (h : nodeActive (npre ++ { x with Status := ⟨NodeStateDown⟩ } :: npost) id) :
    nodeActive (npre ++ x :: npost) id := by
  obtain ⟨n, hn, hid, hst⟩ := h
  rw [List.mem_append, List.mem_cons] at hn
  rcases hn with hn | rfl | hn
  · exact ⟨n, by simp [hn], hid, hst⟩
  · exact absurd rfl hst
  · exact ⟨n, by simp [hn], hid, hst⟩

theorem countedTasks_forall₂ (nodes : List Node) (k : String) {tasks tasks' : List Task}
    (h : List.Forall₂ (fun a b => a.ServiceID = b.ServiceID ∧ a.NodeID = b.NodeID ∧
      a.Status.State = b.Status.State) tasks tasks') :
    countedTasks nodes tasks k = countedTasks nodes tasks' k := by
  unfold countedTasks
  induction h with
  | nil => rfl
  | cons hab _ ih =>
    rw [List.countP_cons, List.countP_cons, ih]
    simp only [countsFor, hab.1, hab.2.1, hab.2.2]

/-- The record of an emitted service, for every node and task list. -/
theorem lookup_emitted (services : List Service) (s : Service) (n : Nat)
    (hs : s ∈ services) (hn : declaredReplicas s = some n) :
    ∃ s' n', ∀ (nodes : List Node) (tasks : List Task),
      Finmap.lookup s.ID (TotalReplicas services nodes tasks)
        = some (recordOf (countedTasks nodes tasks s.ID) s' n') := by
  obtain ⟨s', hs'⟩ := lastEmitted_isSome_of_mem hs hn
  obtain ⟨-, hid, n', hn'⟩ := lastEmitted_some hs'
  refine ⟨s', n', ?_⟩
  intro nodes tasks
  rw [lookup_TotalReplicas, hs']
  simp [hn', hid]

theorem serviceGuard_eq (s : Service) :
    serviceGuard s = Except.ok (declaredReplicas s).isSome := by
  unfold serviceGuard declaredReplicas deref
  cases hr : s.Spec.Mode.Replicated with
  | none => rfl
  | some r => rfl

theorem serviceStepChecked_eq (running : GoMap Nat) (m : GoMap ServiceState) (s : Service) :
    serviceStepChecked running m s = Except.ok (serviceStep running m s) := by
  unfold serviceStepChecked serviceStep
  rw [serviceGuard_eq]
  unfold declaredReplicas deref
  cases hr : s.Spec.Mode.Replicated with
  | none => rfl
  | some r =>
    obtain ⟨c⟩ := r
    cases c with
    | none => rfl
    | some c => rfl

theorem foldlM_serviceStepChecked (running : GoMap Nat) (services : List Service)
    (m : GoMap ServiceState) :
    services.foldlM (serviceStepChecked running) m
      = Except.ok (services.foldl (serviceStep running) m) := by
  induction services generalizing m with
  | nil => rfl
  | cons s rest ih =>
    rw [List.foldlM_cons, serviceStepChecked_eq, List.foldl_cons]
    exact ih _

theorem declaredReplicas_malformed (s : Service) (h : s.Spec.Mode.Replicated = some ⟨none⟩) :
    declaredReplicas s = none := by
  simp [declaredReplicas, h]

theorem nodeActive_perm {nodes nodes' : List Node} (h : nodes'.Perm nodes) (id : String) :
    nodeActive nodes' id ↔ nodeActive nodes id := by
  unfold nodeActive
  constructor
  · rintro ⟨n, hn, hrest⟩
    exact ⟨n, h.mem_iff.mp hn, hrest⟩
  · rintro ⟨n, hn, hrest⟩
    exact ⟨n, h.mem_iff.mpr hn, hrest⟩

theorem countedTasks_perm {nodes nodes' : List Node} {tasks tasks' : List Task}
    (hn : nodes'.Perm nodes) (ht : tasks'.Perm tasks) (k : String) :
    countedTasks nodes' tasks' k = countedTasks nodes tasks k := by
  unfold countedTasks
  rw [List.Perm.countP_eq _ ht]
  apply List.countP_congr
  intro t _
  simp only [decide_eq_true_eq, countsFor, nodeActive_perm hn]

/-- The service found by `lastEmitted` splits the list: it has the id, it
declares a replica count, and no service after it does both. -/
theorem lastEmitted_split {services : List Service} {k : String} {s : Service}
    (h : lastEmitted services k = some s) :
    ∃ pre post, services = pre ++ s :: post ∧
      ∀ x ∈ post, x.ID = k → declaredReplicas x = none := by
  unfold lastEmitted at h
  rw [List.find?_eq_some] at h
  obtain ⟨-, as, bs, hsplit, hnone⟩ := h
  refine ⟨bs.reverse, as.reverse, ?_, ?_⟩
  · have := congrArg List.reverse hsplit
    simpa using this
  · intro x hx hid
    have hx2 := hnone x (List.mem_reverse.mp hx)
    cases hd : declaredReplicas x with
    | none => rfl
    | some c => simp [hid, hd] at hx2

/-! ## The claims -/

/-- C1: for every service `s` of the list that is emitted (replicated mode with
a replica count), the record under `s.ID` exists and its `ReplicasRunning` is
the number of tasks with `ServiceID = s.ID`, observed state `running`, and a
node id for which the roster holds a node that is not `down`; a task whose node
id is absent from the roster changes nothing in the result; on Scenario A the
result is the single record of `S1` with running 1 and required 3. -/
theorem C1_running_is_counted_tasks :
    (∀ (services : List Service) (nodes : List Node) (tasks : List Task) (s : Service) (n : Nat),
      s ∈ services → declaredReplicas s = some n →
      ∃ r, Finmap.lookup s.ID (TotalReplicas services nodes tasks) = some r ∧
        r.ReplicasRunning = tasks.countP (fun t => decide
          (t.ServiceID = s.ID ∧ t.Status.State = "running" ∧
            ∃ x ∈ nodes, x.ID = t.NodeID ∧ x.Status.State ≠ "down")))
    ∧ (∀ (services : List Service) (nodes : List Node) (pre post : List Task) (t : Task),
      (∀ x ∈ nodes, x.ID ≠ t.NodeID) →
      TotalReplicas services nodes (pre ++ t :: post) = TotalReplicas services nodes (pre ++ post))
    ∧ TotalReplicas scenarioAServices scenarioANodes scenarioATasks
        = Finmap.singleton "S1" ⟨"S1", "web", "nginx", 1, 3⟩ := by
  refine ⟨?_, ?_, by decide⟩
  · intro services nodes tasks s n hs hn
    obtain ⟨s', hs'⟩ := lastEmitted_isSome_of_mem hs hn
    obtain ⟨-, hid, n', hn'⟩ := lastEmitted_some hs'
    refine ⟨recordOf (countedTasks nodes tasks s'.ID) s' n', ?_, ?_⟩
    · rw [lookup_TotalReplicas, hs']
      simp [hn']
    · simp only [recordOf, hid]
      rfl
  · intro services nodes pre post t habs
    apply TotalReplicas_congr_tasks
    intro k
    apply countedTasks_remove_of_not_counts
    intro hc
    exact not_nodeActive_of_absent nodes t.NodeID habs hc.2.2

/-- Witness of C1 on Scenario A, and with a fourth task placed on the unknown
node `N9`. -/
theorem C1_running_is_counted_tasks_witness :
    (∃ r, Finmap.lookup "S1" (TotalReplicas scenarioAServices scenarioANodes scenarioATasks)
        = some r ∧ r.ReplicasRunning = 1)
    ∧ TotalReplicas scenarioAServices scenarioANodes
        (scenarioATasks ++ mkTask "S1" "N9" "running" "running" :: [])
      = TotalReplicas scenarioAServices scenarioANodes (scenarioATasks ++ []) :=
  ⟨C1_running_is_counted_tasks.1 scenarioAServices scenarioANodes scenarioATasks
      (mkService "S1" "web" "nginx" 3) 3 (by decide) (by decide),
   C1_running_is_counted_tasks.2.1 scenarioAServices scenarioANodes scenarioATasks []
      (mkTask "S1" "N9" "running" "running") (by decide)⟩

/-- C2 (as stated) fails: with two replicated services sharing the id `S1` the
map has one entry for two replicated-mode services, and the id of a
replicated-mode service whose replica count is missing is not a key. -/
theorem C2_counterexample :
    (TotalReplicas sharedIdServices [] []).len
        ≠ (sharedIdServices.filter (fun s => s.Spec.Mode.Replicated.isSome)).length
    ∧ ¬ (∀ s ∈ malformedServices, s.Spec.Mode.Replicated.isSome →
          s.ID ∈ TotalReplicas malformedServices [] []) := by
  decide

/-- C2 (amended): the keys of the map are exactly the ids of the services that
are in replicated mode with a replica count, and the number of entries is the
number of distinct ids among those services, which is the number of those
services when their ids are pairwise distinct. -/
theorem C2_one_entry_per_emitted_id (services : List Service) (nodes : List Node)
    (tasks : List Task) :
    (∀ s ∈ services, ∀ n, declaredReplicas s = some n →
        s.ID ∈ TotalReplicas services nodes tasks)
    ∧ (∀ k ∈ TotalReplicas services nodes tasks,
        ∃ s ∈ services, s.ID = k ∧ ∃ n, declaredReplicas s = some n)
    ∧ (TotalReplicas services nodes tasks).len
        = ((services.filter (fun s => (declaredReplicas s).isSome)).map
            (fun s => s.ID)).dedup.length
    ∧ (((services.filter (fun s => (declaredReplicas s).isSome)).map (fun s => s.ID)).Nodup →
        (TotalReplicas services nodes tasks).len
          = (services.filter (fun s => (declaredReplicas s).isSome)).length) := by
  have hlen : (TotalReplicas services nodes tasks).len
      = ((services.filter (fun s => (declaredReplicas s).isSome)).map
          (fun s => s.ID)).dedup.length := by
    unfold GoMap.len
    rw [keys_TotalReplicas, List.card_toFinset]
  refine ⟨?_, ?_, hlen, ?_⟩
  · intro s hs n hn
    exact (mem_TotalReplicas services nodes tasks s.ID).mpr ⟨s, hs, rfl, n, hn⟩
  · intro k hk
    exact (mem_TotalReplicas services nodes tasks k).mp hk
  · intro hnd
    rw [hlen, List.Nodup.dedup hnd, List.length_map]

/-- Witness of C2 (amended) on Scenario B: one key, `S1`, for one emitted
service. -/
theorem C2_one_entry_per_emitted_id_witness :
    "S1" ∈ TotalReplicas scenarioBServices scenarioANodes scenarioATasks
    ∧ (TotalReplicas scenarioBServices scenarioANodes scenarioATasks).len = 1 :=
  ⟨(C2_one_entry_per_emitted_id scenarioBServices scenarioANodes scenarioATasks).1
      (mkService "S1" "web" "nginx" 3) (by decide) 3 (by decide),
   (C2_one_entry_per_emitted_id scenarioBServices scenarioANodes scenarioATasks).2.2.2
      (by decide)⟩

/-- C3 (as stated) fails: a non-replicated service that shares its id with a
replicated one finds an entry under its id. -/
theorem C3_counterexample :
    ¬ (∀ s ∈ mixedModeServices, s.Spec.Mode.Replicated = none →
        s.ID ∉ TotalReplicas mixedModeServices scenarioANodes scenarioATasks) := by
  decide

/-- C3 (amended): the loop step of a service that is not in replicated mode
stores nothing; the map has no entry under the id of such a service unless a
service of the list with the same id is in replicated mode with a replica
count; on Scenario B the output holds `S1` only. -/
theorem C3_nonreplicated_not_emitted :
    (∀ (running : GoMap Nat) (m : GoMap ServiceState) (s : Service),
      s.Spec.Mode.Replicated = none → serviceStep running m s = m)
    ∧ (∀ (services : List Service) (nodes : List Node) (tasks : List Task) (s : Service),
      s ∈ services → s.Spec.Mode.Replicated = none →
      (∀ x ∈ services, x.ID = s.ID → declaredReplicas x = none) →
      s.ID ∉ TotalReplicas services nodes tasks)
    ∧ TotalReplicas scenarioBServices scenarioANodes scenarioATasks
        = Finmap.singleton "S1" ⟨"S1", "web", "nginx", 1, 3⟩ := by
  refine ⟨?_, ?_, by decide⟩
  · intro running m s h
    exact serviceStep_none running m s (by simp [declaredReplicas, h])
  · intro services nodes tasks s _ _ hall hmem
    obtain ⟨x, hx, hid, n, hn⟩ := (mem_TotalReplicas services nodes tasks s.ID).mp hmem
    rw [hall x hx hid] at hn
    exact Option.noConfusion hn

/-- Witness of C3 (amended) on Scenario B: no entry under `S2`. -/
theorem C3_nonreplicated_not_emitted_witness :
    "S2" ∉ TotalReplicas scenarioBServices scenarioANodes scenarioATasks :=
  C3_nonreplicated_not_emitted.2.1 scenarioBServices scenarioANodes scenarioATasks
    (mkGlobal "S2" "agent" "busybox") (by decide) (by decide) (by decide)

/-- C4 (as stated) fails: of two replicated services sharing the id `S1`, the
first declares 3 replicas and the record under `S1` requires 5. -/
theorem C4_counterexample :
    ¬ (∀ s ∈ sharedIdServices, ∀ n, declaredReplicas s = some n →
        ∃ r, Finmap.lookup s.ID (TotalReplicas sharedIdServices scenarioANodes scenarioATasks)
          = some r ∧ r.ReplicasRequired = n) := by
  intro h
  obtain ⟨r, hr, hn⟩ := h (mkService "S1" "web" "nginx" 3) (by decide) 3 (by decide)
  have hlook : Finmap.lookup "S1" (TotalReplicas sharedIdServices scenarioANodes scenarioATasks)
      = some ⟨"S1", "web", "nginx", 1, 5⟩ := by decide
  have hr2 : Finmap.lookup "S1" (TotalReplicas sharedIdServices scenarioANodes scenarioATasks)
      = some r := hr
  rw [hlook] at hr2
  cases hr2
  exact absurd hn (by decide)

/-- C4 (amended): for every service `s` of the list in replicated mode with a
replica count, the record under `s.ID` has the `ReplicasRequired` declared by
the last service of the list with that id that has a replica count; it is the
count `s` declares whenever no service after `s` in the list with the same id
has a replica count. -/
theorem C4_required_passes_through :
    (∀ (services : List Service) (nodes : List Node) (tasks : List Task) (s : Service) (n : Nat),
      s ∈ services → declaredReplicas s = some n →
      ∃ r s', Finmap.lookup s.ID (TotalReplicas services nodes tasks) = some r ∧
        lastEmitted services s.ID = some s' ∧ declaredReplicas s' = some r.ReplicasRequired)
    ∧ (∀ (pre post : List Service) (nodes : List Node) (tasks : List Task) (s : Service) (n : Nat),
      declaredReplicas s = some n →
      (∀ x ∈ post, x.ID = s.ID → declaredReplicas x = none) →
      ∃ r, Finmap.lookup s.ID (TotalReplicas (pre ++ s :: post) nodes tasks) = some r ∧
        r.ReplicasRequired = n) := by
  constructor
  · intro services nodes tasks s n hs hn
    obtain ⟨s', hs'⟩ := lastEmitted_isSome_of_mem hs hn
    obtain ⟨-, -, n', hn'⟩ := lastEmitted_some hs'
    refine ⟨recordOf (countedTasks nodes tasks s'.ID) s' n', s', ?_, hs', ?_⟩
    · rw [lookup_TotalReplicas, hs']
      simp [hn']
    · simp [recordOf, hn']
  · intro pre post nodes tasks s n hn hpost
    refine ⟨recordOf (countedTasks nodes tasks s.ID) s n, ?_, rfl⟩
    rw [lookup_TotalReplicas, lastEmitted_of_split pre post s n hn hpost]
    simp [hn]

/-- Witness of C4 (amended): in the list with the shared id the second service
is the last one, and the record requires its 5 replicas. -/
theorem C4_required_passes_through_witness :
    ∃ r, Finmap.lookup "S1"
        (TotalReplicas ([mkService "S1" "web" "nginx" 3] ++ mkService "S1" "web" "nginx" 5 :: [])
          scenarioANodes scenarioATasks) = some r
      ∧ r.ReplicasRequired = 5 :=
  C4_required_passes_through.2 [mkService "S1" "web" "nginx" 3] [] scenarioANodes scenarioATasks
    (mkService "S1" "web" "nginx" 5) 5 (by decide) (by decide)

/-- C5: monotonic gating.  For every emitted service `s`, replacing one task by
a copy whose observed state is not `running`, or whose node id is not that of
an active node, or whose service id is not `s.ID`, gives a record for `s` whose
`ReplicasRunning` is at most the original one; so does changing the status of
one node of the roster to `down`. -/
theorem C5_monotonic_gating :
    (∀ (services : List Service) (nodes : List Node) (pre post : List Task) (t t' : Task)
        (s : Service) (n : Nat),
      s ∈ services → declaredReplicas s = some n →
      ((∃ st, st ≠ TaskStateRunning ∧ t' = { t with Status := ⟨st⟩ }) ∨
       (∃ nid, ¬ nodeActive nodes nid ∧ t' = { t with NodeID := nid }) ∨
       (∃ sid, sid ≠ s.ID ∧ t' = { t with ServiceID := sid })) →
      ∃ r r', Finmap.lookup s.ID (TotalReplicas services nodes (pre ++ t :: post)) = some r ∧
        Finmap.lookup s.ID (TotalReplicas services nodes (pre ++ t' :: post)) = some r' ∧
        r'.ReplicasRunning ≤ r.ReplicasRunning)
    ∧ (∀ (services : List Service) (npre npost : List Node) (x : Node) (tasks : List Task)
        (s : Service) (n : Nat),
      s ∈ services → declaredReplicas s = some n →
      ∃ r r', Finmap.lookup s.ID (TotalReplicas services (npre ++ x :: npost) tasks) = some r ∧
        Finmap.lookup s.ID
          (TotalReplicas services (npre ++ { x with Status := ⟨NodeStateDown⟩ } :: npost) tasks)
          = some r' ∧
        r'.ReplicasRunning ≤ r.ReplicasRunning) := by
  constructor
  · intro services nodes pre post t t' s n hs hn hgate
    obtain ⟨s', n', hrec⟩ := lookup_emitted services s n hs hn
    refine ⟨_, _, hrec nodes (pre ++ t :: post), hrec nodes (pre ++ t' :: post), ?_⟩
    apply countedTasks_replace_le
    rcases hgate with ⟨st, hst, rfl⟩ | ⟨nid, hnid, rfl⟩ | ⟨sid, hsid, rfl⟩
    · exact fun hc => hst hc.2.1
    · exact fun hc => hnid hc.2.2
    · exact fun hc => hsid hc.1
  · intro services npre npost x tasks s n hs hn
    obtain ⟨s', n', hrec⟩ := lookup_emitted services s n hs hn
    refine ⟨_, _, hrec (npre ++ x :: npost) tasks, hrec _ tasks, ?_⟩
    apply countedTasks_mono_nodes
    intro id
    exact nodeActive_of_down npre npost x id

/-- Witness of C5 on Scenario A: the first task moved to the unknown node `N9`,
and the node `N1` taken down. -/
theorem C5_monotonic_gating_witness :
    (∃ r r', Finmap.lookup "S1"
        (TotalReplicas scenarioAServices scenarioANodes
          ([] ++ mkTask "S1" "N1" "running" "running" ::
            [mkTask "S1" "N2" "running" "running", mkTask "S1" "N1" "pending" "running"]))
        = some r ∧
      Finmap.lookup "S1"
        (TotalReplicas scenarioAServices scenarioANodes
          ([] ++ mkTask "S1" "N9" "running" "running" ::
            [mkTask "S1" "N2" "running" "running", mkTask "S1" "N1" "pending" "running"]))
        = some r' ∧
      r'.ReplicasRunning ≤ r.ReplicasRunning)
    ∧ (∃ r r', Finmap.lookup "S1"
        (TotalReplicas scenarioAServices ([] ++ ⟨"N1", ⟨"ready"⟩⟩ :: [⟨"N2", ⟨"down"⟩⟩])
          scenarioATasks) = some r ∧
      Finmap.lookup "S1"
        (TotalReplicas scenarioAServices ([] ++ ⟨"N1", ⟨"down"⟩⟩ :: [⟨"N2", ⟨"down"⟩⟩])
          scenarioATasks) = some r' ∧
      r'.ReplicasRunning ≤ r.ReplicasRunning) :=
  ⟨C5_monotonic_gating.1 scenarioAServices scenarioANodes []
      [mkTask "S1" "N2" "running" "running", mkTask "S1" "N1" "pending" "running"]
      (mkTask "S1" "N1" "running" "running") (mkTask "S1" "N9" "running" "running")
      (mkService "S1" "web" "nginx" 3) 3 (by decide) (by decide)
      (Or.inr (Or.inl ⟨"N9", by decide, rfl⟩)),
   C5_monotonic_gating.2 scenarioAServices [] [⟨"N2", ⟨"down"⟩⟩] ⟨"N1", ⟨"ready"⟩⟩
      scenarioATasks (mkService "S1" "web" "nginx" 3) 3 (by decide) (by decide)⟩

/-- C6: desired state does not gate the running count.  Two task lists that
agree position by position on `ServiceID`, `NodeID` and `Status.State` give
equal maps, whatever their `DesiredState`s; and the result is the same
whatever the `tasksNoShutdown` counter holds when the loop over tasks starts. -/
theorem C6_desired_state_does_not_gate :
    (∀ (services : List Service) (nodes : List Node) (tasks tasks' : List Task),
      List.Forall₂ (fun a b => a.ServiceID = b.ServiceID ∧ a.NodeID = b.NodeID ∧
        a.Status.State = b.Status.State) tasks tasks' →
      TotalReplicas services nodes tasks = TotalReplicas services nodes tasks')
    ∧ (∀ (services : List Service) (nodes : List Node) (tasks : List Task) (m : GoMap Nat),
      services.foldl
          (serviceStep (tasks.foldl (taskStep (nodes.foldl nodeStep ∅)) ⟨∅, m⟩).running) ∅
        = TotalReplicas services nodes tasks) := by
  constructor
  · intro services nodes tasks tasks' h
    apply TotalReplicas_congr_tasks
    intro k
    exact countedTasks_forall₂ nodes k h
  · intro services nodes tasks m
    unfold TotalReplicas
    simp only [fold_taskStep_running]

/-- Witness of C6: Scenario A with every task desired `shutdown`. -/
theorem C6_desired_state_does_not_gate_witness :
    TotalReplicas scenarioAServices scenarioANodes scenarioATasks
      = TotalReplicas scenarioAServices scenarioANodes
          [mkTask "S1" "N1" "running" "shutdown",
           mkTask "S1" "N2" "running" "shutdown",
           mkTask "S1" "N1" "pending" "shutdown"] :=
  C6_desired_state_does_not_gate.1 scenarioAServices scenarioANodes scenarioATasks _
    (List.Forall₂.cons ⟨rfl, rfl, rfl⟩ (List.Forall₂.cons ⟨rfl, rfl, rfl⟩
      (List.Forall₂.cons ⟨rfl, rfl, rfl⟩ List.Forall₂.nil)))

/-- C7 (as stated) fails: with no node and no task, the replicated-mode service
`S3`, whose replica count is missing, has no entry. -/
theorem C7_counterexample :
    ¬ ((TotalReplicas [] [] [] = ∅) ∧
        (∀ s ∈ malformedServices, s.Spec.Mode.Replicated.isSome →
          s.ID ∈ TotalReplicas malformedServices [] []) ∧
        (∀ k r, Finmap.lookup k (TotalReplicas malformedServices [] []) = some r →
          r.ReplicasRunning = 0)) := by
  intro h
  exact absurd (h.2.1 (mkMalformed "S3" "db" "redis") (by decide) (by decide)) (by decide)

/-- C7 (amended): `TotalReplicas [] [] []` is the empty map, and for every
service list `TotalReplicas services [] []` has an entry for every service in
replicated mode with a replica count and every entry has `ReplicasRunning = 0`. -/
theorem C7_empty_inputs :
    TotalReplicas [] [] [] = ∅
    ∧ ∀ (services : List Service),
        (∀ s ∈ services, ∀ n, declaredReplicas s = some n →
          s.ID ∈ TotalReplicas services [] [])
        ∧ (∀ k r, Finmap.lookup k (TotalReplicas services [] []) = some r →
          r.ReplicasRunning = 0) := by
  refine ⟨rfl, ?_⟩
  intro services
  constructor
  · intro s hs n hn
    exact (mem_TotalReplicas services [] [] s.ID).mpr ⟨s, hs, rfl, n, hn⟩
  · intro k r hr
    rw [lookup_TotalReplicas] at hr
    cases hl : lastEmitted services k with
    | none => simp [hl] at hr
    | some s =>
      obtain ⟨-, -, n, hn⟩ := lastEmitted_some hl
      simp only [hl, hn, Option.some_bind, Option.map_some', Option.some.injEq] at hr
      rw [← hr]
      rfl

/-- Witness of C7 (amended) on the services of Scenario B. -/
theorem C7_empty_inputs_witness :
    "S1" ∈ TotalReplicas scenarioBServices [] []
    ∧ (⟨"S1", "web", "nginx", 0, 3⟩ : ServiceState).ReplicasRunning = 0 :=
  ⟨(C7_empty_inputs.2 scenarioBServices).1 (mkService "S1" "web" "nginx" 3) (by decide) 3
      (by decide),
   (C7_empty_inputs.2 scenarioBServices).2 "S1" ⟨"S1", "web", "nginx", 0, 3⟩ (by decide)⟩

/-- C8: a service in replicated mode whose replica count is missing causes no
failure (with every pointer dereference explicit, the function returns the map
and never panics), its loop step stores nothing, and removing it from the
service list leaves the returned map unchanged. -/
theorem C8_malformed_service_skipped :
    (∀ (services : List Service) (nodes : List Node) (tasks : List Task),
      TotalReplicasChecked services nodes tasks
        = Except.ok (TotalReplicas services nodes tasks))
    ∧ (∀ (running : GoMap Nat) (m : GoMap ServiceState) (s : Service),
      s.Spec.Mode.Replicated = some ⟨none⟩ →
      serviceStepChecked running m s = Except.ok m ∧ serviceStep running m s = m)
    ∧ (∀ (pre post : List Service) (nodes : List Node) (tasks : List Task) (s : Service),
      s.Spec.Mode.Replicated = some ⟨none⟩ →
      TotalReplicas (pre ++ s :: post) nodes tasks = TotalReplicas (pre ++ post) nodes tasks) := by
  refine ⟨?_, ?_, ?_⟩
  · intro services nodes tasks
    unfold TotalReplicasChecked TotalReplicas
    exact foldlM_serviceStepChecked _ _ _
  · intro running m s h
    have hstep := serviceStep_none running m s (declaredReplicas_malformed s h)
    exact ⟨by rw [serviceStepChecked_eq, hstep], hstep⟩
  · intro pre post nodes tasks s h
    unfold TotalReplicas
    simp only [List.foldl_append, List.foldl_cons]
    rw [serviceStep_none _ _ s (declaredReplicas_malformed s h)]

/-- Witness of C8: the malformed `S3` between the two services of Scenario B. -/
theorem C8_malformed_service_skipped_witness :
    TotalReplicas ([mkService "S1" "web" "nginx" 3] ++ mkMalformed "S3" "db" "redis" ::
        [mkGlobal "S2" "agent" "busybox"]) scenarioANodes scenarioATasks
      = TotalReplicas ([mkService "S1" "web" "nginx" 3] ++ [mkGlobal "S2" "agent" "busybox"])
          scenarioANodes scenarioATasks :=
  C8_malformed_service_skipped.2.2 [mkService "S1" "web" "nginx" 3]
    [mkGlobal "S2" "agent" "busybox"] scenarioANodes scenarioATasks
    (mkMalformed "S3" "db" "redis") rfl

/-- C9: the result does not depend on the order of the node list or of the
task list: permuting both gives the same map.  The set of active nodes the
first loop builds holds an id exactly when some node of the roster, at any
position, has that id and a status other than `down`. -/
theorem C9_order_independent :
    (∀ (services : List Service) (nodes nodes' : List Node) (tasks tasks' : List Task),
      nodes'.Perm nodes → tasks'.Perm tasks →
      TotalReplicas services nodes' tasks' = TotalReplicas services nodes tasks)
    ∧ (∀ (nodes : List Node) (k : String),
      k ∈ nodes.foldl nodeStep ∅ ↔ ∃ x ∈ nodes, x.ID = k ∧ x.Status.State ≠ "down") := by
  constructor
  · intro services nodes nodes' tasks tasks' hn ht
    apply TotalReplicas_congr_tasks
    intro k
    exact countedTasks_perm hn ht k
  · intro nodes k
    rw [mem_nodes_fold]
    simp [Finmap.not_mem_empty, nodeActive, NodeStateDown]

/-- Witness of C9: Scenario A with the two nodes swapped and the first two
tasks swapped. -/
theorem C9_order_independent_witness :
    TotalReplicas scenarioAServices [⟨"N2", ⟨"down"⟩⟩, ⟨"N1", ⟨"ready"⟩⟩]
        [mkTask "S1" "N2" "running" "running", mkTask "S1" "N1" "running" "running",
         mkTask "S1" "N1" "pending" "running"]
      = TotalReplicas scenarioAServices scenarioANodes scenarioATasks :=
  C9_order_independent.1 scenarioAServices scenarioANodes _ scenarioATasks _
    (List.Perm.swap _ _ _) (List.Perm.swap _ _ _)

/-- C10: every entry is stored under its own `ID`, and the record under a key
`k` carries the `ID`, `Name`, `Image` and `ReplicasRequired` of the last
service of the list that has id `k` and is in replicated mode with a replica
count: the list splits at that service, and no service after it has id `k`
and a replica count. -/
theorem C10_last_service_wins (services : List Service) (nodes : List Node)
    (tasks : List Task) (k : String) (r : ServiceState)
    (h : Finmap.lookup k (TotalReplicas services nodes tasks) = some r) :
    r.ID = k ∧
    ∃ pre s post, services = pre ++ s :: post ∧
      s.ID = k ∧ declaredReplicas s = some r.ReplicasRequired ∧
      (∀ x ∈ post, x.ID = k → declaredReplicas x = none) ∧
      r.ID = s.ID ∧ r.Name = s.Spec.Name ∧
      r.Image = s.Spec.TaskTemplate.ContainerSpec.Image := by
  rw [lookup_TotalReplicas] at h
  cases hl : lastEmitted services k with
  | none => simp [hl] at h
  | some s =>
    obtain ⟨-, hid, n, hn⟩ := lastEmitted_some hl
    obtain ⟨pre, post, hsplit, hpost⟩ := lastEmitted_split hl
    simp only [hl, hn, Option.some_bind, Option.map_some', Option.some.injEq] at h
    subst h
    exact ⟨hid, pre, s, post, hsplit, hid, hn, hpost, rfl, rfl, rfl⟩

/-- Witness of C10: two services share the id `S1`; the record is the second
one's. -/
theorem C10_last_service_wins_witness :
    (⟨"S1", "api", "httpd", 1, 5⟩ : ServiceState).ID = "S1" ∧
    ∃ pre s post,
      [mkService "S1" "web" "nginx" 3, mkService "S1" "api" "httpd" 5] = pre ++ s :: post ∧
      s.ID = "S1" ∧
      declaredReplicas s = some (⟨"S1", "api", "httpd", 1, 5⟩ : ServiceState).ReplicasRequired ∧
      (∀ x ∈ post, x.ID = "S1" → declaredReplicas x = none) ∧
      (⟨"S1", "api", "httpd", 1, 5⟩ : ServiceState).ID = s.ID ∧
      (⟨"S1", "api", "httpd", 1, 5⟩ : ServiceState).Name = s.Spec.Name ∧
      (⟨"S1", "api", "httpd", 1, 5⟩ : ServiceState).Image
        = s.Spec.TaskTemplate.ContainerSpec.Image :=
  C10_last_service_wins [mkService "S1" "web" "nginx" 3, mkService "S1" "api" "httpd" 5]
    scenarioANodes scenarioATasks "S1" ⟨"S1", "api", "httpd", 1, 5⟩ (by decide)

end PcDocker
